import Mathlib

/-!
# Verification of the CronJob-Report WhatsApp session / delivery layer

Shallow embedding, in Lean 4, of the session-lifecycle and
delivery-assurance modules of the CronJob-Report repository:

* `WAMessageDeduplicator` (TTL dedup cache),
* `WAMessageQueue` (Bottleneck-configured rate-limited dispatch queue),
* `WAClient` (both the whatsapp-web.js and the Baileys variants:
  initialize guard, reconnection policy, `getState`, `waitForReady`
  listener cleanup, `sendMessage` readiness gate),
* `waService` (`wrapSendMessage`/`sendWithRetry`, `getHardInitRetryDelayMs`),
* `WAService._handleIncomingMessage` (inbound dedup wiring).

Time is modelled as natural-number milliseconds (`Date.now()`), JS `Map`s
as association lists with the usual first-occurrence lookup/replace
semantics, and randomness (`Math.random()`) as an explicit rational
parameter in `[0, 1)`.
-/

set_option maxRecDepth 100000

namespace CronJobReport

/-! ## WAMessageDeduplicator (src/unnamed/part_003)

`this.cache` is a JS `Map` from message key to `{ timestamp, expiry }`.
We embed the map as an association list whose operations mirror `Map.get`,
`Map.set` (replace in place, else append) and `Map.delete`. -/

structure DedupEntry where
  timestamp : Nat
  expiry : Nat
deriving DecidableEq, Repr

abbrev DedupCacheMap := List (String × DedupEntry)

def cacheLookup : DedupCacheMap → String → Option DedupEntry
  | [], _ => none
  | (k', v) :: rest, k => if k' = k then some v else cacheLookup rest k

def cacheSet : DedupCacheMap → String → DedupEntry → DedupCacheMap
  | [], k, v => [(k, v)]
  | (k', v') :: rest, k, v =>
      if k' = k then (k, v) :: rest else (k', v') :: cacheSet rest k v

def cacheDelete : DedupCacheMap → String → DedupCacheMap
  | [], _ => []
  | (k', v') :: rest, k =>
      if k' = k then rest else (k', v') :: cacheDelete rest k

structure Dedup where
  ttl : Nat
  cache : DedupCacheMap
deriving DecidableEq, Repr

/-- Default construction: `options.ttl || 24 * 60 * 60 * 1000`. -/
def Dedup.default : Dedup := ⟨24 * 60 * 60 * 1000, []⟩

/-- `isDuplicate(messageId)`: miss → `false`; expired hit
(`Date.now() > entry.expiry`) → delete the entry and return `false`;
otherwise `true`.  The returned cache reflects the lazy deletion. -/
def Dedup.isDuplicate (d : Dedup) (now : Nat) (messageId : String) :
    Bool × Dedup :=
  match cacheLookup d.cache messageId with
  | none => (false, d)
  | some entry =>
      if entry.expiry < now then
        (false, { d with cache := cacheDelete d.cache messageId })
      else (true, d)

/-- `markProcessed(messageId)`: `cache.set(messageId,
{ timestamp: Date.now(), expiry: Date.now() + this.ttl })`. -/
def Dedup.markProcessed (d : Dedup) (now : Nat) (messageId : String) : Dedup :=
  { d with cache := cacheSet d.cache messageId ⟨now, now + d.ttl⟩ }

/-! ## WAService._handleIncomingMessage
(src/tests/waClientRestartRequired.test.js, embedded WAService source)

```
const messageKey = `${clientId}:${message.id._serialized}`;
if (this.deduplicator.isDuplicate(messageKey)) { return; }
this.deduplicator.markProcessed(messageKey);
for (const handler of this.messageHandlers) { await handler(clientId, message); }
```

The returned `Bool` records whether the registered external message
handlers were invoked, and the returned `Dedup` is the deduplicator state
in effect when they run (the key is marked before the handler loop). -/

def handleIncomingMessage (d : Dedup) (now : Nat)
    (clientId msgIdSerialized : String) : Dedup × Bool :=
  let messageKey := clientId ++ ":" ++ msgIdSerialized
  let checked := d.isDuplicate now messageKey
  if checked.1 then (checked.2, false)
  else (checked.2.markProcessed now messageKey, true)

/-! ### Association-list lemmas (JS `Map` semantics) -/

theorem cacheLookup_cacheSet_self (c : DedupCacheMap) (k : String)
    (v : DedupEntry) : cacheLookup (cacheSet c k v) k = some v := by
  induction c with
  | nil => simp [cacheSet, cacheLookup]
  | cons hd tl ih =>
      obtain ⟨k', v'⟩ := hd
      by_cases h : k' = k <;> simp [cacheSet, cacheLookup, h, ih]

/-- Keys of a cache map. -/
def cacheKeys (c : DedupCacheMap) : List String := c.map Prod.fst

theorem cacheLookup_eq_none (c : DedupCacheMap) (k : String)
    (h : k ∉ cacheKeys c) : cacheLookup c k = none := by
  induction c with
  | nil => simp [cacheLookup]
  | cons hd tl ih =>
      obtain ⟨k', v'⟩ := hd
      simp only [cacheKeys, List.map_cons, List.mem_cons] at h
      push_neg at h
      have hk : ¬ k' = k := fun he => h.1 he.symm
      simp only [cacheLookup, if_neg hk]
      exact ih h.2

theorem cacheLookup_cacheDelete_self (c : DedupCacheMap) (k : String)
    (hnd : (cacheKeys c).Nodup) :
    cacheLookup (cacheDelete c k) k = none := by
  induction c with
  | nil => simp [cacheDelete, cacheLookup]
  | cons hd tl ih =>
      obtain ⟨k', v'⟩ := hd
      simp only [cacheKeys, List.map_cons, List.nodup_cons] at hnd
      by_cases h : k' = k
      · subst h
        simpa [cacheDelete, cacheKeys] using cacheLookup_eq_none tl k' hnd.1
      · simp only [cacheDelete, if_neg h, cacheLookup, if_neg h]
        exact ih hnd.2

theorem cacheKeys_cacheSet (c : DedupCacheMap) (k : String) (v : DedupEntry) :
    cacheKeys (cacheSet c k v)
      = if k ∈ cacheKeys c then cacheKeys c else cacheKeys c ++ [k] := by
  induction c with
  | nil => simp [cacheSet, cacheKeys]
  | cons hd tl ih =>
      obtain ⟨k', v'⟩ := hd
      by_cases h : k' = k
      · subst h
        simp [cacheSet, cacheKeys]
      · have hne : ¬ k = k' := fun he => h he.symm
        simp only [cacheKeys, List.map_cons] at ih ⊢
        simp only [cacheSet, if_neg h, List.map_cons]
        rw [ih]
        by_cases hm : k ∈ List.map Prod.fst tl
        · simp [hm, hne]
        · simp [hm, hne]

theorem cacheKeys_cacheSet_nodup (c : DedupCacheMap) (k : String)
    (v : DedupEntry) (h : (cacheKeys c).Nodup) :
    (cacheKeys (cacheSet c k v)).Nodup := by
  rw [cacheKeys_cacheSet]
  by_cases hk : k ∈ cacheKeys c
  · simpa [hk] using h
  · simp only [if_neg hk]
    refine List.Nodup.append h (List.nodup_singleton k) ?_
    intro a ha hak
    simp only [List.mem_singleton] at hak
    exact hk (hak ▸ ha)

/-! ### C4 and C9 -/

/-- C4.  `markProcessed(k)` at `t0` stores `expiry = t0 + TTL`.  A later
`isDuplicate(k)` at `t` (no intervening `markProcessed(k)` or `destroy`)
returns `true` whenever `t ≤ t0 + TTL - 1` (i.e. `t - t0 ≤ TTL - 1ms`) and
returns `false` whenever `t ≥ t0 + TTL + 1` (i.e. `t - t0 ≥ TTL + 1ms`),
in which case the expired entry is also deleted from the cache. -/
theorem dedup_markProcessed_isDuplicate_ttl_boundary
    (d : Dedup) (k : String) (t0 t : Nat)
    (hnd : (cacheKeys d.cache).Nodup) :
    cacheLookup (d.markProcessed t0 k).cache k = some ⟨t0, t0 + d.ttl⟩ ∧
    (t + 1 ≤ t0 + d.ttl → ((d.markProcessed t0 k).isDuplicate t k).1 = true) ∧
    (t0 + d.ttl + 1 ≤ t →
      ((d.markProcessed t0 k).isDuplicate t k).1 = false ∧
      cacheLookup ((d.markProcessed t0 k).isDuplicate t k).2.cache k = none) := by
  have hset : cacheLookup (d.markProcessed t0 k).cache k
      = some ⟨t0, t0 + d.ttl⟩ := cacheLookup_cacheSet_self d.cache k _
  refine ⟨hset, ?_, ?_⟩
  · intro hle
    have hfresh : ¬ (t0 + d.ttl < t) := by omega
    simp [Dedup.isDuplicate, hset, hfresh]
  · intro hge
    have hexp : t0 + d.ttl < t := by omega
    have hdel : cacheLookup (cacheDelete (d.markProcessed t0 k).cache k) k
        = none :=
      cacheLookup_cacheDelete_self _ k (cacheKeys_cacheSet_nodup d.cache k _ hnd)
    refine ⟨?_, ?_⟩
    · simp [Dedup.isDuplicate, hset, hexp]
    · simp only [Dedup.isDuplicate, hset, if_pos hexp]
      exact hdel

/-- Witness for `dedup_markProcessed_isDuplicate_ttl_boundary` at the
default 24h TTL, an empty cache, `t0 = 0`, `t = TTL - 1` and `t = TTL + 1`. -/
theorem dedup_markProcessed_isDuplicate_ttl_boundary_witness :
    ((Dedup.default.markProcessed 0 "c1:m1").isDuplicate 86399999 "c1:m1").1
      = true ∧
    ((Dedup.default.markProcessed 0 "c1:m1").isDuplicate 86400001 "c1:m1").1
      = false ∧
    cacheLookup
      ((Dedup.default.markProcessed 0 "c1:m1").isDuplicate
        86400001 "c1:m1").2.cache "c1:m1" = none := by
  refine ⟨?_, ?_, ?_⟩
  · exact (dedup_markProcessed_isDuplicate_ttl_boundary Dedup.default
      "c1:m1" 0 86399999 (by simp [Dedup.default, cacheKeys])).2.1 (by decide)
  · exact ((dedup_markProcessed_isDuplicate_ttl_boundary Dedup.default
      "c1:m1" 0 86400001 (by simp [Dedup.default, cacheKeys])).2.2
      (by decide)).1
  · exact ((dedup_markProcessed_isDuplicate_ttl_boundary Dedup.default
      "c1:m1" 0 86400001 (by simp [Dedup.default, cacheKeys])).2.2
      (by decide)).2

theorem isDuplicate_eq_of_lookup_fresh (d : Dedup) (now : Nat) (k : String)
    (e : DedupEntry) (hl : cacheLookup d.cache k = some e)
    (he : ¬ e.expiry < now) : d.isDuplicate now k = (true, d) := by
  simp [Dedup.isDuplicate, hl, he]

theorem isDuplicate_ttl_eq (d : Dedup) (now : Nat) (k : String) :
    (d.isDuplicate now k).2.ttl = d.ttl := by
  cases hl : cacheLookup d.cache k with
  | none => simp [Dedup.isDuplicate, hl]
  | some e =>
      by_cases he : e.expiry < now <;> simp [Dedup.isDuplicate, hl, he]

/-- C9.  For every inbound message event, the registered external message
handlers are invoked at most once per deduplication key
`clientId ++ ":" ++ message.id._serialized` within the TTL: after a first
event at `t0` that reached the handlers, the key is in the cache with
expiry `t0 + TTL` in the very deduplicator state the handlers observe
(marked processed before any handler runs), and a second event carrying
the same client id and message id at any `t ≤ t0 + TTL` reaches no
handler and leaves the deduplicator unchanged. -/
theorem handleIncomingMessage_at_most_once_per_key
    (d : Dedup) (t0 t : Nat) (cid mid : String)
    (h1 : (handleIncomingMessage d t0 cid mid).2 = true)
    (ht : t ≤ t0 + d.ttl) :
    cacheLookup (handleIncomingMessage d t0 cid mid).1.cache
      (cid ++ ":" ++ mid) = some ⟨t0, t0 + d.ttl⟩ ∧
    handleIncomingMessage (handleIncomingMessage d t0 cid mid).1 t cid mid
      = ((handleIncomingMessage d t0 cid mid).1, false) := by
  have hfirst : handleIncomingMessage d t0 cid mid
      = ((d.isDuplicate t0 (cid ++ ":" ++ mid)).2.markProcessed t0
          (cid ++ ":" ++ mid), true) := by
    by_cases hb : (d.isDuplicate t0 (cid ++ ":" ++ mid)).1
    · exfalso
      simp [handleIncomingMessage, hb] at h1
    · simp [handleIncomingMessage, hb]
  have hlook : cacheLookup
      ((d.isDuplicate t0 (cid ++ ":" ++ mid)).2.markProcessed t0
        (cid ++ ":" ++ mid)).cache (cid ++ ":" ++ mid)
      = some ⟨t0, t0 + d.ttl⟩ := by
    have := cacheLookup_cacheSet_self
      (d.isDuplicate t0 (cid ++ ":" ++ mid)).2.cache (cid ++ ":" ++ mid)
      ⟨t0, t0 + (d.isDuplicate t0 (cid ++ ":" ++ mid)).2.ttl⟩
    simpa [Dedup.markProcessed, isDuplicate_ttl_eq] using this
  refine ⟨by rw [hfirst]; exact hlook, ?_⟩
  rw [hfirst]
  have hdup : ((d.isDuplicate t0 (cid ++ ":" ++ mid)).2.markProcessed t0
      (cid ++ ":" ++ mid)).isDuplicate t (cid ++ ":" ++ mid)
      = (true, (d.isDuplicate t0 (cid ++ ":" ++ mid)).2.markProcessed t0
          (cid ++ ":" ++ mid)) :=
    isDuplicate_eq_of_lookup_fresh _ t _ ⟨t0, t0 + d.ttl⟩ hlook
      (not_lt.mpr ht)
  simp only [handleIncomingMessage, hdup, if_pos]

/-! ## WAMessageQueue (src/unnamed/part_004)

The queue wraps a Bottleneck limiter.  Its `failed` event handler decides
whether a failed send is retried:

```
this.limiter.on('failed', (error, jobInfo) => {
  const retryCount = jobInfo.retryCount || 0;
  if (retryCount < 3) { return 1000 * (retryCount + 1); }
});
```

The handler never inspects `error`; the embedding keeps the (ignored)
error argument to make that visible. -/

/-- Errors a send can fail with.  `rateLimit` stands for errors that the
rest of the codebase detects as rate-limit errors
(`err.data === 429 || err.message === "rate-overlimit"` in
`waService.sendWithRetry`); `other` is any other error. -/
inductive SendError
  | rateLimit : SendError
  | other : String → SendError
deriving DecidableEq, Repr

/-- The `limiter.on('failed')` handler: returns the retry delay in ms, or
`none` (JS `undefined`, meaning no retry) when 3 retries were used. -/
def failedHandlerRetryDelay (_error : SendError) (retryCount : Nat) :
    Option Nat :=
  if retryCount < 3 then some (1000 * (retryCount + 1)) else none

/-- Modelled from the spec: the Bottleneck retry driver (library code, not
under src/) — when a scheduled job fails it consults the `failed` handler;
a numeric return value means the same job is re-executed after that delay
with `retryCount` incremented, and `undefined` means the error is
surfaced to the caller.  `outcomes n` is the transport result of the
`n`-th execution of the job. -/
def runJobFrom (outcomes : Nat → Except SendError Unit) (retryCount : Nat) :
    Except SendError Unit × List Nat :=
  match outcomes retryCount with
  | .ok u => (.ok u, [])
  | .error e =>
      match failedHandlerRetryDelay e retryCount with
      | none => (.error e, [])
      | some delay =>
          if h : retryCount < 3 then
            let rest := runJobFrom outcomes (retryCount + 1)
            (rest.1, delay :: rest.2)
          else (.error e, [])
termination_by 3 - retryCount

/-- A job scheduled on the queue: first execution has `retryCount = 0`. -/
def runJob (outcomes : Nat → Except SendError Unit) :
    Except SendError Unit × List Nat :=
  runJobFrom outcomes 0

/-- C1 counterexample.  A send failing with a non-rate-limit error
(`"ECONNRESET"`) on its first attempt is retried after 1000ms rather than
surfaced immediately: the `failed` handler returns a retry delay for every
error kind, and the job runs a second time. -/
theorem queue_retries_non_rate_limit_error :
    failedHandlerRetryDelay (SendError.other "ECONNRESET") 0 = some 1000 ∧
    runJob (fun n => if n = 0 then .error (SendError.other "ECONNRESET")
      else .ok ()) = (.ok (), [1000]) := by
  constructor
  · rfl
  · simp [runJob, runJobFrom, failedHandlerRetryDelay]

/-- C1 amended.  The dispatch queue retries a failed send regardless of
whether the failure is a rate-limit error: the retry decision ignores the
error entirely, retrying up to 3 additional times with linear backoff
`1000ms * attempt`, and only a failure on the 4th execution (after 3
retries) is surfaced to the caller. -/
theorem queue_retry_policy_amended (e e' : SendError) (n : Nat)
    (outcomes : Nat → Except SendError Unit) :
    failedHandlerRetryDelay e n = failedHandlerRetryDelay e' n ∧
    (n < 3 → failedHandlerRetryDelay e n = some (1000 * (n + 1))) ∧
    (3 ≤ n → failedHandlerRetryDelay e n = none) ∧
    ((∀ k, outcomes k = .error e) →
      runJob outcomes = (.error e, [1000, 2000, 3000])) := by
  refine ⟨rfl, ?_, ?_, ?_⟩
  · intro h
    simp [failedHandlerRetryDelay, h]
  · intro h
    simp [failedHandlerRetryDelay, Nat.not_lt.mpr h]
  · intro h
    simp [runJob, runJobFrom, h, failedHandlerRetryDelay]

/-- Witness for `queue_retry_policy_amended` at `n = 1` and an
always-failing job. -/
theorem queue_retry_policy_amended_witness :
    failedHandlerRetryDelay SendError.rateLimit 1 = some 2000 ∧
    runJob (fun _ => .error SendError.rateLimit)
      = (.error SendError.rateLimit, [1000, 2000, 3000]) := by
  have h := queue_retry_policy_amended SendError.rateLimit
    (SendError.other "x") 1 (fun _ => .error SendError.rateLimit)
  exact ⟨h.2.1 (by decide), h.2.2.2 (fun k => rfl)⟩

/-! ## Readiness gates on the send paths

Three send entry points exist:

* `WAClient.sendMessage` (src/src/wa/WAClient.js): `if (!this.isReady)
  throw new Error('Client is not ready')`, only then is the transport
  send attempted;
* `WAMessageQueue.schedule` (src/unnamed/part_004): `if (!client ||
  !client.isReady) throw new Error('Client is not ready')`, only then is
  the send job handed to the limiter;
* the `waService` wrapper `wrapSendMessage`/`sendWithRetry`
  (src/src/service/waService.js): the call is queued on a `PQueue` and
  `await waitFn()` waits for the client to become ready, up to the ready
  timeout, before the transport send — it does not throw immediately.

Each embedding returns the call's outcome together with the number of
transport sends attempted for that call. -/

def waClientSendMessage (isReady : Bool) (transportResult : String) :
    Except String String × Nat :=
  if isReady = false then (.error "Client is not ready", 0)
  else (.ok transportResult, 1)

def waMessageQueueSchedule (hasClient isReady : Bool) :
    Except String Unit × Nat :=
  if hasClient = false ∨ isReady = false then
    (.error "Client is not ready", 0)
  else (.ok (), 1)

/-- `sendWithRetry`'s readiness wait: `readyAt` is the instant the client
(readiness state) becomes ready (`none`: never).  `waitForClientReady`
resolves if readiness arrives within `timeoutMs` of the call, after which
the original `sendMessage` is applied; otherwise the wait rejects and the
wrapper throws `"WhatsApp client not ready"` without sending.  (The retry
loop inside `sendWithRetry` is irrelevant here: the transport send is
taken to succeed.) -/
def wrappedSendMessage (readyAt : Option Nat) (callTime timeoutMs : Nat) :
    Except String Unit × Nat :=
  match readyAt with
  | none => (.error "WhatsApp client not ready", 0)
  | some r =>
      if r ≤ callTime + timeoutMs then (.ok (), 1)
      else (.error "WhatsApp client not ready", 0)

/-- C5 counterexample.  A send issued through the `waService` wrapper at
time 0 while the client is not ready (it becomes ready only at 5000ms)
does not throw: the call is queued until the session recovers and one
transport send is attempted. -/
theorem wrapped_send_waits_instead_of_throwing :
    ¬ (5000 ≤ (0 : Nat)) ∧
    wrappedSendMessage (some 5000) 0 60000 = (.ok (), 1) :=
  ⟨by decide, rfl⟩

/-- C5 amended.  `WAClient.sendMessage` and `WAMessageQueue.schedule`
throw immediately when the client is not ready, attempting no transport
send; the `waService` `wrapSendMessage` wrapper instead queues the call
and waits for readiness up to the ready timeout, attempting the transport
send if the client becomes ready in time and throwing only otherwise. -/
theorem send_readiness_gate_amended (hasClient isReady : Bool)
    (tr : String) (readyAt : Option Nat) (callTime timeoutMs : Nat) :
    (isReady = false →
      waClientSendMessage isReady tr = (.error "Client is not ready", 0) ∧
      waMessageQueueSchedule hasClient isReady
        = (.error "Client is not ready", 0)) ∧
    (readyAt = none →
      wrappedSendMessage readyAt callTime timeoutMs
        = (.error "WhatsApp client not ready", 0)) ∧
    (∀ r, readyAt = some r → callTime + timeoutMs < r →
      wrappedSendMessage readyAt callTime timeoutMs
        = (.error "WhatsApp client not ready", 0)) ∧
    (∀ r, readyAt = some r → r ≤ callTime + timeoutMs →
      wrappedSendMessage readyAt callTime timeoutMs = (.ok (), 1)) := by
  refine ⟨?_, ?_, ?_, ?_⟩
  · intro h
    simp [waClientSendMessage, waMessageQueueSchedule, h]
  · intro h
    simp [wrappedSendMessage, h]
  · intro r hr hlt
    simp [wrappedSendMessage, hr, Nat.not_le.mpr hlt]
  · intro r hr hle
    simp [wrappedSendMessage, hr, hle]

/-- Witness for `send_readiness_gate_amended`: a not-ready client and a
wrapper call whose client becomes ready at 5000ms with a 60000ms
timeout. -/
theorem send_readiness_gate_amended_witness :
    waClientSendMessage false "res" = (.error "Client is not ready", 0) ∧
    waMessageQueueSchedule true false = (.error "Client is not ready", 0) ∧
    wrappedSendMessage (some 5000) 0 60000 = (.ok (), 1) := by
  have h := send_readiness_gate_amended true false "res" (some 5000) 0 60000
  exact ⟨(h.1 rfl).1, (h.1 rfl).2, h.2.2.2 5000 rfl (by decide)⟩

/-! ## WAClient.initialize() entry guard (both variants)

```
if (this.isInitializing) { ...; return; }
if (this.isReady) { ...; return; }
this.isInitializing = true;
...
```

`initialize()` is an `async` JS function.  A call that passes the guard
starts an attempt and settles with that attempt's outcome: it resolves
`undefined` on success and can reject — `throw error` once
`maxInitRetries` is exceeded.  A call stopped by the guard returns at
once, so its promise is a fresh one resolving `undefined` immediately;
it is not the first call's in-flight promise and does not share its
settlement.  The embedding returns the updated flags, whether a new
initialization attempt was started, and the result the caller's promise
settles with (`attemptOutcome` being what the started attempt would
settle with). -/

structure InitFlags where
  isInitializing : Bool
  isReady : Bool
deriving DecidableEq, Repr

def initializeEntryGuard (s : InitFlags) : InitFlags × Bool :=
  if s.isInitializing then (s, false)
  else if s.isReady then (s, false)
  else ({ s with isInitializing := true }, true)

def initializeCallResult (s : InitFlags)
    (attemptOutcome : Except String Unit) : Except String Unit :=
  if s.isInitializing then .ok ()
  else if s.isReady then .ok ()
  else attemptOutcome

/-- C7 counterexample.  A first `initialize()` call (flags clear) starts
an attempt that ultimately rejects with the max-retries error; a second
call made while that attempt is still in flight resolves `undefined`
immediately.  The second call's result is not the existing in-flight
result of the first call: the first rejects, the second resolves. -/
theorem initialize_second_call_result_not_first :
    initializeCallResult ⟨false, false⟩
      (.error "Maximum initialization retries (3) exceeded")
      = .error "Maximum initialization retries (3) exceeded" ∧
    initializeCallResult ⟨true, false⟩
      (.error "Maximum initialization retries (3) exceeded") = .ok () ∧
    (Except.ok () : Except String Unit)
      ≠ .error "Maximum initialization retries (3) exceeded" :=
  ⟨rfl, rfl, fun h => Except.noConfusion h⟩

/-- C7 amended.  Calling `initialize()` while a prior call is still in
flight (`isInitializing`) or while the client is already ready is a
no-op: the client state is unchanged and no second initialization
attempt is started.  The call returns a fresh, immediately resolved
`undefined` — not the existing in-flight or resolved result of the first
call — regardless of how the in-flight attempt later settles. -/
theorem initialize_idempotent_amended (s : InitFlags)
    (attemptOutcome : Except String Unit)
    (h : s.isInitializing = true ∨ s.isReady = true) :
    initializeEntryGuard s = (s, false) ∧
    initializeCallResult s attemptOutcome = .ok () := by
  rcases h with h | h
  · exact ⟨by simp [initializeEntryGuard, h],
      by simp [initializeCallResult, h]⟩
  · by_cases h2 : s.isInitializing
    · exact ⟨by simp [initializeEntryGuard, h2],
        by simp [initializeCallResult, h2]⟩
    · exact ⟨by simp [initializeEntryGuard, h, h2],
        by simp [initializeCallResult, h, h2]⟩

/-- Witness for `initialize_idempotent_amended`: a call during an
in-flight attempt that will reject, and a call on a ready client. -/
theorem initialize_idempotent_amended_witness :
    (initializeEntryGuard ⟨true, false⟩ = (⟨true, false⟩, false) ∧
     initializeCallResult ⟨true, false⟩ (.error "init failed") = .ok ()) ∧
    (initializeEntryGuard ⟨false, true⟩ = (⟨false, true⟩, false) ∧
     initializeCallResult ⟨false, true⟩ (.ok ()) = .ok ()) :=
  ⟨initialize_idempotent_amended ⟨true, false⟩ (.error "init failed")
    (Or.inl rfl),
   initialize_idempotent_amended ⟨false, true⟩ (.ok ()) (Or.inr rfl)⟩

/-! ## WAClient.getState

wwebjs variant (src/src/wa/WAClient.js:370-381): `NOT_INITIALIZED` when
no underlying client exists, the underlying `client.getState()` value
when the query succeeds, `'ERROR'` when it throws — the whole body is
inside `try/catch`, so no exception escapes and the function always
resolves with a value.  The underlying query is modelled as either
returning a state string or throwing. -/

inductive TransportStateQuery
  | ok : String → TransportStateQuery
  | threw : TransportStateQuery
deriving DecidableEq, Repr

def wwebjsGetState (hasClient : Bool) (q : TransportStateQuery) : String :=
  if hasClient = false then "NOT_INITIALIZED"
  else
    match q with
    | .ok s => s
    | .threw => "ERROR"

/-- Baileys variant (src/src/wa/WAClient.js:1316-1338): maps the
websocket `readyState` (`socket.ws?.readyState`, absent when the chain
yields `undefined`) to the wwebjs state names. -/
def baileysGetState (hasSocket : Bool) (wsReadyState : Option Nat) :
    String :=
  if hasSocket = false then "NOT_INITIALIZED"
  else if wsReadyState = some 1 then "CONNECTED"
  else if wsReadyState = some 0 then "CONNECTING"
  else if wsReadyState = some 2 ∨ wsReadyState = some 3 then "DISCONNECTED"
  else "UNKNOWN"

/-- C10.  `getState()` never throws: it is a total function into strings.
With no underlying client it returns `"NOT_INITIALIZED"`; when the
underlying query throws it returns `"ERROR"`; otherwise it returns the
underlying state value.  The Baileys variant always returns one of five
fixed strings. -/
theorem getState_total_string (hasClient : Bool) (q : TransportStateQuery)
    (hasSocket : Bool) (ws : Option Nat) :
    (hasClient = false → wwebjsGetState hasClient q = "NOT_INITIALIZED") ∧
    (hasClient = true → ∀ s, q = .ok s → wwebjsGetState hasClient q = s) ∧
    (hasClient = true → q = .threw → wwebjsGetState hasClient q = "ERROR") ∧
    baileysGetState hasSocket ws ∈
      ["NOT_INITIALIZED", "CONNECTED", "CONNECTING", "DISCONNECTED",
       "UNKNOWN"] := by
  refine ⟨?_, ?_, ?_, ?_⟩
  · intro h
    simp [wwebjsGetState, h]
  · intro h s hq
    simp [wwebjsGetState, h, hq]
  · intro h hq
    simp [wwebjsGetState, h, hq]
  · unfold baileysGetState
    split_ifs <;> simp

/-- Witness for `getState_total_string`: no client, a throwing query, a
successful query, and a Baileys socket in each websocket state. -/
theorem getState_total_string_witness :
    wwebjsGetState false (.ok "CONNECTED") = "NOT_INITIALIZED" ∧
    wwebjsGetState true (.ok "CONNECTED") = "CONNECTED" ∧
    wwebjsGetState true .threw = "ERROR" ∧
    baileysGetState true (some 3) ∈
      ["NOT_INITIALIZED", "CONNECTED", "CONNECTING", "DISCONNECTED",
       "UNKNOWN"] := by
  refine ⟨?_, ?_, ?_,
    (getState_total_string true (.ok "CONNECTED") true (some 3)).2.2.2⟩
  · exact (getState_total_string false (.ok "CONNECTED") true
      (some 3)).1 rfl
  · exact (getState_total_string true (.ok "CONNECTED") true
      (some 3)).2.1 rfl "CONNECTED" rfl
  · exact (getState_total_string true .threw true (some 3)).2.2.1 rfl rfl

/-! ## Disconnect classification and reconnection (src/src/wa/WAClient.js)

Both `WAClient` variants react to a disconnect by clearing the readiness
flags and then, unless the reason is terminal, scheduling one
`setTimeout(() => this.initialize(), delay)` timer.  The embedding
carries the list of due times of such pending initialize timers. -/

def wwebjsNoReconnectReasons : List String := ["LOGGED_OUT", "UNPAIRED"]

def baileysNoReconnectReasons : List String :=
  ["LOGGED_OUT", "UNPAIRED", "FORBIDDEN", "MULTIDEVICE_MISMATCH",
   "CONNECTION_REPLACED", "BAD_SESSION"]

/-- The Baileys `connection === 'close'` reason mapping: numeric
`DisconnectReason` status code → (reason string, shouldReconnect).
401 loggedOut, 403 forbidden (credential revoked), 411
multideviceMismatch, 428 connectionClosed, 408 connectionLost/timedOut,
440 connectionReplaced (session replaced elsewhere), 500 badSession
(corrupted credential), 515 restartRequired, 503 unavailableService;
anything else stays `UNKNOWN` with `shouldReconnect = true`. -/
def baileysClassifyClose (statusCode : Option Nat) : String × Bool :=
  match statusCode with
  | none => ("UNKNOWN", true)
  | some c =>
      if c = 401 then ("LOGGED_OUT", false)
      else if c = 403 then ("FORBIDDEN", false)
      else if c = 411 then ("MULTIDEVICE_MISMATCH", false)
      else if c = 428 then ("CONNECTION_CLOSED", true)
      else if c = 408 then ("CONNECTION_LOST", true)
      else if c = 440 then ("CONNECTION_REPLACED", false)
      else if c = 500 then ("BAD_SESSION", false)
      else if c = 515 then ("RESTART_REQUIRED", true)
      else if c = 503 then ("UNAVAILABLE_SERVICE", true)
      else ("UNKNOWN", true)

structure WAClientState where
  isReady : Bool
  isInitializing : Bool
  authenticated : Bool
  reconnectAttempts : Nat
  maxReconnectAttempts : Nat
  reconnectDelay : Nat
  pendingInitTimers : List Nat
deriving DecidableEq, Repr

/-- `_handleReconnection(reason)`, parametrized by the variant's
`noReconnectReasons` list: bail out on a terminal reason or when
`reconnectAttempts >= maxReconnectAttempts`; otherwise increment the
attempt counter and schedule `initialize()` after
`reconnectDelay * 2 ** (attempts - 1)` ms. -/
def handleReconnection (noReconnect : List String) (s : WAClientState)
    (reason : String) (now : Nat) : WAClientState :=
  if reason ∈ noReconnect ∨ s.maxReconnectAttempts ≤ s.reconnectAttempts
  then s
  else
    { s with
      reconnectAttempts := s.reconnectAttempts + 1,
      pendingInitTimers := s.pendingInitTimers
        ++ [now + s.reconnectDelay * 2 ^ s.reconnectAttempts] }

/-- The Baileys `connection === 'close'` branch: clear flags, classify,
and reconnect only when `shouldReconnect`. -/
def handleConnectionClose (s : WAClientState) (statusCode : Option Nat)
    (now : Nat) : WAClientState :=
  let s1 := { s with isReady := false, isInitializing := false,
                     authenticated := false }
  let c := baileysClassifyClose statusCode
  if c.2 then handleReconnection baileysNoReconnectReasons s1 c.1 now
  else s1

/-- The wwebjs `disconnected` event handler: clear flags then
`_handleReconnection(reason)`. -/
def handleDisconnectedWwebjs (s : WAClientState) (reason : String)
    (now : Nat) : WAClientState :=
  let s1 := { s with isReady := false, isInitializing := false,
                     authenticated := false }
  handleReconnection wwebjsNoReconnectReasons s1 reason now

/-- Advancing the clock to `t`: every pending initialize timer due by `t`
fires, each invoking `initialize()` once.  Returns the remaining timers
and the number of `initialize()` invocations. -/
def fireInitTimersUpTo (timers : List Nat) (t : Nat) : List Nat × Nat :=
  (timers.filter (fun d => decide (t < d)),
   (timers.filter (fun d => decide (d ≤ t))).length)

/-- C2.  A disconnect whose reason is classified terminal (Baileys:
status codes mapped with `shouldReconnect = false`, covering explicit
logout 401, credential revoked 403, session replaced 440, corrupted
credential 500; wwebjs: `LOGGED_OUT`/`UNPAIRED`) schedules no
reconnection timer; if no initialize timer was outstanding, then no
matter how far the clock advances no timer fires and `initialize()` is
never invoked again without an external call. -/
theorem terminal_disconnect_is_absorbing (s : WAClientState) (code : Nat)
    (reason : String) (now t : Nat)
    (hb : (baileysClassifyClose (some code)).2 = false)
    (hw : reason ∈ wwebjsNoReconnectReasons) :
    (handleConnectionClose s (some code) now).pendingInitTimers
       = s.pendingInitTimers ∧
    (handleDisconnectedWwebjs s reason now).pendingInitTimers
       = s.pendingInitTimers ∧
    (s.pendingInitTimers = [] →
      fireInitTimersUpTo
        (handleConnectionClose s (some code) now).pendingInitTimers t
        = ([], 0) ∧
      fireInitTimersUpTo
        (handleDisconnectedWwebjs s reason now).pendingInitTimers t
        = ([], 0)) := by
  have h1 : (handleConnectionClose s (some code) now).pendingInitTimers
      = s.pendingInitTimers := by
    simp [handleConnectionClose, hb]
  have h2 : (handleDisconnectedWwebjs s reason now).pendingInitTimers
      = s.pendingInitTimers := by
    simp [handleDisconnectedWwebjs, handleReconnection, hw]
  refine ⟨h1, h2, fun hnil => ?_⟩
  rw [h1, h2, hnil]
  exact ⟨rfl, rfl⟩

/-- Witness for `terminal_disconnect_is_absorbing`: a READY session with
no outstanding timer receiving `CONNECTION_REPLACED` (code 440) on the
Baileys path and `LOGGED_OUT` on the wwebjs path; the clock then advances
to 10^9 ms with zero `initialize()` invocations.  The other terminal
codes (401, 403, 500) are checked on the classifier directly. -/
theorem terminal_disconnect_is_absorbing_witness :
    (fireInitTimersUpTo
      (handleConnectionClose ⟨true, false, true, 0, 5, 5000, []⟩
        (some 440) 0).pendingInitTimers 1000000000 = ([], 0) ∧
     fireInitTimersUpTo
      (handleDisconnectedWwebjs ⟨true, false, true, 0, 5, 5000, []⟩
        "LOGGED_OUT" 0).pendingInitTimers 1000000000 = ([], 0)) ∧
    (baileysClassifyClose (some 401)).2 = false ∧
    (baileysClassifyClose (some 403)).2 = false ∧
    (baileysClassifyClose (some 500)).2 = false :=
  ⟨(terminal_disconnect_is_absorbing ⟨true, false, true, 0, 5, 5000, []⟩
      440 "LOGGED_OUT" 0 1000000000 (by decide) (by decide)).2.2 rfl,
   by decide, by decide, by decide⟩

/-! ## waitForReady listener cleanup (src/src/wa/WAClient.js)

`waitForReady` registers `this.once('ready', ...)`,
`this.once('auth_failure', ...)` (wwebjs only) and
`this.once('disconnected', ...)`, and its `cleanup` runs

```
this.removeAllListeners('ready');
this.removeAllListeners('auth_failure');   // wwebjs variant only
this.removeAllListeners('disconnected');
```

The emitter's listener lists are embedded per event, identifying handlers
by numeric ids; `qr` stands for the events `cleanup` does not touch. -/

structure ListenerState where
  ready : List Nat
  authFailure : List Nat
  disconnected : List Nat
  qr : List Nat
deriving DecidableEq, Repr

def waitForReadyRegisterWwebjs (l : ListenerState)
    (hReady hAuth hDisc : Nat) : ListenerState :=
  { l with ready := l.ready ++ [hReady],
           authFailure := l.authFailure ++ [hAuth],
           disconnected := l.disconnected ++ [hDisc] }

def waitForReadyCleanupWwebjs (l : ListenerState) : ListenerState :=
  { l with ready := [], authFailure := [], disconnected := [] }

def waitForReadyRegisterBaileys (l : ListenerState) (hReady hDisc : Nat) :
    ListenerState :=
  { l with ready := l.ready ++ [hReady],
           disconnected := l.disconnected ++ [hDisc] }

def waitForReadyCleanupBaileys (l : ListenerState) : ListenerState :=
  { l with ready := [], disconnected := [] }

/-- C3 counterexample.  An external subsystem's `'ready'` listener
(id 7) registered before the wait is gone after the wait's cleanup runs:
the cleanup removes all listeners for the event, not only the wait's
own. -/
theorem waitForReady_cleanup_removes_external_listener :
    (waitForReadyCleanupWwebjs
      (waitForReadyRegisterWwebjs ⟨[7], [8], [9], [4]⟩ 100 101 102)).ready
      = [] ∧
    7 ∉ (waitForReadyCleanupWwebjs
      (waitForReadyRegisterWwebjs ⟨[7], [8], [9], [4]⟩ 100 101 102)).ready := by
  exact ⟨rfl, by decide⟩

/-- C3 amended.  The cleanup run by `waitForReady` on resolution,
rejection or timeout removes every listener for `'ready'`,
`'auth_failure'` (wwebjs variant) and `'disconnected'` — including
listeners registered by other subsystems before or during the wait —
leaving those events with no listeners at all; listeners for other
events (e.g. `'qr'`) are untouched.  The Baileys variant does the same
for `'ready'` and `'disconnected'`. -/
theorem waitForReady_cleanup_amended (l : ListenerState) (a b c : Nat) :
    waitForReadyCleanupWwebjs (waitForReadyRegisterWwebjs l a b c)
      = ⟨[], [], [], l.qr⟩ ∧
    waitForReadyCleanupBaileys (waitForReadyRegisterBaileys l a c)
      = ⟨[], l.authFailure, [], l.qr⟩ :=
  ⟨rfl, rfl⟩

/-! ## Backoff policy

`getHardInitRetryDelayMs(attempt)` (src/src/service/waService.js:469-474):

```
const baseDelay = hardInitRetryBaseDelayMs * 2 ** Math.max(0, attempt - 1);
const cappedDelay = Math.min(baseDelay, hardInitRetryMaxDelayMs);
const jitter = Math.floor(Math.random() * 0.2 * cappedDelay);
return cappedDelay + jitter;
```

with `hardInitRetryBaseDelayMs = 120000` and `hardInitRetryMaxDelayMs =
900000`.  `Math.random()` is passed explicitly as a rational
`rnd ∈ [0, 1)`; natural subtraction `attempt - 1` coincides with
`Math.max(0, attempt - 1)`. -/

def hardInitRetryBaseDelayMs : Nat := 120000

def hardInitRetryMaxDelayMs : Nat := 900000

def cappedInitDelay (attempt : Nat) : ℤ :=
  min ((hardInitRetryBaseDelayMs : ℤ) * 2 ^ (attempt - 1))
    (hardInitRetryMaxDelayMs : ℤ)

def getHardInitRetryDelayMs (rnd : ℚ) (attempt : Nat) : ℤ :=
  cappedInitDelay attempt
    + ⌊rnd * (1 / 5 : ℚ) * ((cappedInitDelay attempt : ℤ) : ℚ)⌋

/-- `WAClient._handleReconnection` delay:
`this.reconnectDelay * (2 ** (this.reconnectAttempts - 1))` with
`reconnectDelay = 5000`; computed only after the guard, so only for
`1 ≤ attempts ≤ maxReconnectAttempts = 5`. -/
def reconnectDelayForAttempt (attempt : Nat) : Nat :=
  5000 * 2 ^ (attempt - 1)

theorem cappedInitDelay_nonneg (n : Nat) : 0 ≤ cappedInitDelay n :=
  le_min (by positivity) (by norm_num)

theorem cappedInitDelay_le_cap (n : Nat) : cappedInitDelay n ≤ 900000 := by
  unfold cappedInitDelay hardInitRetryMaxDelayMs
  exact le_trans (min_le_right _ _) (by norm_num)

theorem cappedInitDelay_mono {n m : Nat} (h : n ≤ m) :
    cappedInitDelay n ≤ cappedInitDelay m := by
  unfold cappedInitDelay
  refine min_le_min ?_ le_rfl
  refine mul_le_mul_of_nonneg_left ?_ (by positivity)
  exact pow_le_pow_right₀ (by norm_num) (Nat.sub_le_sub_right h 1)

/-- C8.  For every attempt `n ≥ 1` and random draw `rnd ∈ [0, 1)`, the
hard-init retry delay equals `min(base * 2^(n-1), cap) + jitter` with
`jitter ∈ [0, 0.2 * cappedDelay]`; the delay is bounded by `1.2 * cap`
and, for a fixed draw, non-decreasing in the attempt number.  The
reconnect-path delay `5000 * 2^(n-1)` (only computed for `n ≤ 5`)
satisfies the same formula with zero jitter, since it stays below the
cap there. -/
theorem backoff_delay_formula (n m : Nat) (rnd : ℚ)
    (hn : 1 ≤ n) (h0 : 0 ≤ rnd) (h1 : rnd < 1) (hnm : n ≤ m) :
    cappedInitDelay n = min ((120000 : ℤ) * 2 ^ (n - 1)) 900000 ∧
    (∃ j : ℤ, getHardInitRetryDelayMs rnd n = cappedInitDelay n + j ∧
      0 ≤ j ∧ (j : ℚ) ≤ (1 / 5) * ((cappedInitDelay n : ℤ) : ℚ)) ∧
    ((getHardInitRetryDelayMs rnd n : ℚ) ≤ (6 / 5) * 900000) ∧
    getHardInitRetryDelayMs rnd n ≤ getHardInitRetryDelayMs rnd m ∧
    (n ≤ 5 → (reconnectDelayForAttempt n : ℤ)
      = min ((5000 : ℤ) * 2 ^ (n - 1)) 900000 + 0) := by
  have hcap0 : (0 : ℚ) ≤ ((cappedInitDelay n : ℤ) : ℚ) := by
    exact_mod_cast cappedInitDelay_nonneg n
  have hr5 : (0 : ℚ) ≤ rnd * (1 / 5) := by positivity
  have hfl_le : (⌊rnd * (1 / 5 : ℚ) * ((cappedInitDelay n : ℤ) : ℚ)⌋ : ℚ)
      ≤ (1 / 5) * ((cappedInitDelay n : ℤ) : ℚ) := by
    refine le_trans (Int.floor_le _) ?_
    calc rnd * (1 / 5 : ℚ) * ((cappedInitDelay n : ℤ) : ℚ)
        ≤ 1 * (1 / 5 : ℚ) * ((cappedInitDelay n : ℤ) : ℚ) := by
          refine mul_le_mul_of_nonneg_right ?_ hcap0
          exact mul_le_mul_of_nonneg_right (le_of_lt h1) (by norm_num)
      _ = (1 / 5) * ((cappedInitDelay n : ℤ) : ℚ) := by ring
  refine ⟨rfl, ⟨⌊rnd * (1 / 5 : ℚ) * ((cappedInitDelay n : ℤ) : ℚ)⌋,
    rfl, ?_, hfl_le⟩, ?_, ?_, ?_⟩
  · exact Int.floor_nonneg.mpr (mul_nonneg hr5 hcap0)
  · have hcapQ : ((cappedInitDelay n : ℤ) : ℚ) ≤ 900000 := by
      exact_mod_cast cappedInitDelay_le_cap n
    have : (getHardInitRetryDelayMs rnd n : ℚ)
        ≤ ((cappedInitDelay n : ℤ) : ℚ)
          + (1 / 5) * ((cappedInitDelay n : ℤ) : ℚ) := by
      unfold getHardInitRetryDelayMs
      push_cast
      exact add_le_add_left hfl_le _
    calc (getHardInitRetryDelayMs rnd n : ℚ)
        ≤ ((cappedInitDelay n : ℤ) : ℚ)
          + (1 / 5) * ((cappedInitDelay n : ℤ) : ℚ) := this
      _ = (6 / 5) * ((cappedInitDelay n : ℤ) : ℚ) := by ring
      _ ≤ (6 / 5) * 900000 := by
          exact mul_le_mul_of_nonneg_left hcapQ (by norm_num)
  · unfold getHardInitRetryDelayMs
    have hmono := cappedInitDelay_mono hnm
    refine add_le_add hmono (Int.floor_mono ?_)
    exact mul_le_mul_of_nonneg_left (by exact_mod_cast hmono) hr5
  · intro h5
    interval_cases n <;> decide

/-- Witness for `backoff_delay_formula` at `n = 3`, `m = 4`,
`rnd = 1/2`. -/
theorem backoff_delay_formula_witness :
    cappedInitDelay 3 = min ((120000 : ℤ) * 2 ^ (3 - 1)) 900000 ∧
    (∃ j : ℤ, getHardInitRetryDelayMs (1 / 2) 3 = cappedInitDelay 3 + j ∧
      0 ≤ j ∧ (j : ℚ) ≤ (1 / 5) * ((cappedInitDelay 3 : ℤ) : ℚ)) ∧
    ((getHardInitRetryDelayMs (1 / 2) 3 : ℚ) ≤ (6 / 5) * 900000) ∧
    getHardInitRetryDelayMs (1 / 2) 3 ≤ getHardInitRetryDelayMs (1 / 2) 4 ∧
    (3 ≤ 5 → (reconnectDelayForAttempt 3 : ℤ)
      = min ((5000 : ℤ) * 2 ^ (3 - 1)) 900000 + 0) :=
  backoff_delay_formula 3 4 (1 / 2) (by norm_num) (by norm_num)
    (by norm_num) (by norm_num)

/-! ## Dispatch-queue rate limiting (src/unnamed/part_004)

`WAMessageQueue` configures a Bottleneck limiter with `minTime: 350`,
`maxConcurrent: 1`, `reservoir: 40`, `reservoirRefreshAmount: 40`,
`reservoirRefreshInterval: 60000`.  Bottleneck itself is a third-party
library, not part of this repository, so its scheduling semantics is
modelled from the spec. -/

structure LimiterConfig where
  minTime : Nat
  capacity : Nat
  windowMs : Nat
deriving Repr

/-- The configuration `WAMessageQueue` passes to Bottleneck. -/
def waQueueLimiterConfig : LimiterConfig := ⟨350, 40, 60000⟩

structure LimiterState where
  tokens : Nat
  refreshAt : Nat
  lastSend : Option Nat
deriving Repr, DecidableEq

def LimiterState.initial (cfg : LimiterConfig) : LimiterState :=
  ⟨cfg.capacity, cfg.windowMs, none⟩

/-- Modelled from the spec: the Bottleneck limiter's scheduling semantics
(library code, not under src/) — "capacity = 40 tokens refilled to full
every 60s, minimum inter-send spacing 350ms, concurrency fixed at 1
(messages sent strictly in submission order)".  A job may not start
before its arrival, before `minTime` has elapsed since the previous send
(single concurrency), or without a reservoir token; the reservoir is
reset to `capacity` at each multiple of `windowMs` since creation.
Returns the send instant and the successor state. -/
def nextSend (cfg : LimiterConfig) (st : LimiterState) (arrival : Nat) :
    Nat × LimiterState :=
  let earliest :=
    match st.lastSend with
    | none => arrival
    | some t => max arrival (t + cfg.minTime)
  if st.refreshAt ≤ earliest then
    -- one or more refresh instants pass before the job can start: the
    -- reservoir is full again at the last of them, and the job consumes
    -- one token at `earliest`
    let k := (earliest - st.refreshAt) / cfg.windowMs + 1
    (earliest, ⟨cfg.capacity - 1, st.refreshAt + k * cfg.windowMs,
      some earliest⟩)
  else if st.tokens = 0 then
    -- reservoir exhausted: the job waits for the refill instant
    (st.refreshAt, ⟨cfg.capacity - 1, st.refreshAt + cfg.windowMs,
      some st.refreshAt⟩)
  else
    (earliest, ⟨st.tokens - 1, st.refreshAt, some earliest⟩)

def scheduleFrom (cfg : LimiterConfig) (st : LimiterState) :
    List Nat → List Nat
  | [] => []
  | a :: rest =>
      (nextSend cfg st a).1 :: scheduleFrom cfg (nextSend cfg st a).2 rest

/-- Send instants produced for a list of submission (arrival) times. -/
def scheduleAll (cfg : LimiterConfig) (arrivals : List Nat) : List Nat :=
  scheduleFrom cfg (LimiterState.initial cfg) arrivals

theorem nextSend_lastSend (cfg : LimiterConfig) (st : LimiterState)
    (a : Nat) : (nextSend cfg st a).2.lastSend = some (nextSend cfg st a).1 := by
  simp only [nextSend]
  split_ifs <;> rfl

theorem nextSend_ge_spacing (cfg : LimiterConfig) (st : LimiterState)
    (a t0 : Nat) (h : st.lastSend = some t0) :
    t0 + cfg.minTime ≤ (nextSend cfg st a).1 := by
  obtain ⟨tok, ra, ls⟩ := st
  simp only at h
  subst h
  simp only [nextSend]
  split_ifs with h1 h2 <;> simp only <;> omega

theorem scheduleFrom_chainFrom (cfg : LimiterConfig) :
    ∀ (arrivals : List Nat) (st : LimiterState) (t0 : Nat),
      st.lastSend = some t0 →
      List.Chain (fun x y => x + cfg.minTime ≤ y) t0
        (scheduleFrom cfg st arrivals)
  | [], _, _, _ => List.Chain.nil
  | a :: rest, st, t0, h => by
      simp only [scheduleFrom]
      exact List.Chain.cons (nextSend_ge_spacing cfg st a t0 h)
        (scheduleFrom_chainFrom cfg rest (nextSend cfg st a).2
          (nextSend cfg st a).1 (nextSend_lastSend cfg st a))

theorem scheduleAll_chain (cfg : LimiterConfig) (arrivals : List Nat) :
    List.Chain' (fun x y => x + cfg.minTime ≤ y)
      (scheduleAll cfg arrivals) := by
  cases arrivals with
  | nil => exact trivial
  | cons a rest =>
      show List.Chain _ _ _
      exact scheduleFrom_chainFrom cfg rest _ _
        (nextSend_lastSend cfg (LimiterState.initial cfg) a)

/-- The 80-submission burst used to refute the sliding-window bound: 40
submissions at t = 46350 followed by 40 submissions at t = 60000. -/
def burstArrivals : List Nat :=
  List.replicate 40 46350 ++ List.replicate 40 60000

/-- C6 counterexample.  With the queue's own configuration (capacity 40,
window 60000ms, spacing 350ms), the refill-to-full-every-60s semantics
admits 79 sends inside the single 60000ms window `[46350, 106350)`:
"at most 40 sends within any 60000ms window" is false. -/
theorem dispatch_queue_sliding_window_violated :
    ((scheduleAll waQueueLimiterConfig burstArrivals).filter
      (fun t => decide (46350 ≤ t ∧ t < 46350 + 60000))).length = 79 ∧
    40 < 79 := by
  constructor
  · decide
  · decide

/-- C6 amended.  For every submission sequence on one session's queue,
consecutive sends are separated by at least 350ms (hence at most one send
is in flight at any instant and sends occur strictly in submission
order); sends never exceed the reservoir within one refresh period
rather than within arbitrary sliding windows: after 41 back-to-back
submissions at t = 0 the first 40 sends all happen before the refill at
60000ms — exactly 40 sends occur in `[0, 60000)` — and the 41st send
waits for the refill, occurring exactly at 60000ms. -/
theorem dispatch_queue_rate_limit_amended :
    (∀ arrivals : List Nat,
      List.Chain' (fun x y => x + 350 ≤ y)
        (scheduleAll waQueueLimiterConfig arrivals)) ∧
    (scheduleAll waQueueLimiterConfig (List.replicate 41 0))[40]?
      = some 60000 ∧
    ((scheduleAll waQueueLimiterConfig (List.replicate 41 0)).filter
      (fun t => decide (t < 60000))).length = 40 := by
  refine ⟨fun arrivals => scheduleAll_chain waQueueLimiterConfig arrivals,
    ?_, ?_⟩
  · decide
  · decide

/-- Witness for `handleIncomingMessage_at_most_once_per_key`: a fresh key
`"c1:m1"` processed at `t0 = 0` and seen again at `t = 1000` with the
default 24h TTL. -/
theorem handleIncomingMessage_at_most_once_per_key_witness :
    cacheLookup (handleIncomingMessage Dedup.default 0 "c1" "m1").1.cache
      ("c1" ++ ":" ++ "m1") = some ⟨0, 0 + Dedup.default.ttl⟩ ∧
    handleIncomingMessage (handleIncomingMessage Dedup.default 0 "c1" "m1").1
      1000 "c1" "m1"
      = ((handleIncomingMessage Dedup.default 0 "c1" "m1").1, false) :=
  handleIncomingMessage_at_most_once_per_key Dedup.default 0 1000 "c1" "m1"
    (by decide) (by decide)

end CronJobReport
